import Mathlib

/-!
Verification development for the UBL invoice-generation core of the
efactura-ts-sdk repository: the invoice builder (`src/ubl/InvoiceBuilder.ts`)
together with its tax-grouping engine, its input validator and the
county/sector address sanitizer.

Monetary values are modelled as exact rationals (`ℚ`); the source's
`parseFloat(x.toFixed(2))` idiom is modelled by `round2`, rounding half up
to two decimal places, which is the decimal-rounding semantics the
specification prescribes for every monetary step. Strings use explicit
character-list operations so that every definition evaluates on concrete
inputs.
-/

/-- Rounding to two decimals, half up: the model of the source idiom
`parseFloat(x.toFixed(2))`. JavaScript's `toFixed` picks the larger of two
equally close candidates, i.e. rounds ties toward positive infinity. -/
def round2 (q : ℚ) : ℚ := (⌊q * 100 + 1/2⌋ : ℚ) / 100

/-- Rendering of a monetary value by `x.toFixed(2)`: optional sign, the
integer digits, a dot, then exactly two fractional digits. -/
def toFixed2 (q : ℚ) : String :=
  let n : Int := ⌊q * 100 + 1/2⌋
  let sign := if n < 0 then "-" else ""
  let m : Nat := n.natAbs
  sign ++ toString (m / 100) ++ "." ++
    String.mk [Nat.digitChar (m / 10 % 10), Nat.digitChar (m % 10)]

/-- JavaScript `a || d` on an optional string field: the default is used when
the field is absent or is the empty string (both falsy). -/
def jsOr (o : Option String) (d : String) : String :=
  match o with
  | some s => if s = "" then d else s
  | none => d

/-- Model of JavaScript `String.prototype.trim`: drop whitespace characters
from both ends. Written on the character list so it evaluates by reduction. -/
def jsTrim (s : String) : String :=
  String.mk (((s.data.dropWhile Char.isWhitespace).reverse.dropWhile
    Char.isWhitespace).reverse)

/-- Rendering of a JavaScript number by `toString` as used for quantities.
Integral values print without a fractional part; the (claim-irrelevant)
non-integral decimal rendering is abstracted by the rational `toString`. -/
def ratText (q : ℚ) : String :=
  if q.den = 1 then toString q.num else toString q

/-- Address information for UBL parties (interface `Address` in the source's
type declarations). -/
structure Address where
  street : String
  city : String
  postalZone : String
  county : Option String
  countryCode : Option String
deriving DecidableEq, Repr

/-- Party information for suppliers and customers (interface `Party`).
`address` is modelled as optional because `validateParty` explicitly checks
its presence before any use. -/
structure Party where
  registrationName : String
  companyId : String
  isVatPayer : Option Bool
  address : Option Address
deriving DecidableEq, Repr

/-- Invoice line item (interface `InvoiceLine`). `id` is modelled as the
string the source renders (`line.id?.toString()`). -/
structure InvoiceLine where
  id : Option String
  name : String
  description : Option String
  quantity : ℚ
  unitCode : Option String
  unitPrice : ℚ
  taxPercent : Option ℚ
deriving DecidableEq, Repr

/-- Complete invoice data for UBL generation (interface `InvoiceInput`).
Dates are modelled as strings; every field whose presence
`validateInvoiceInput` checks is modelled as optional. -/
structure InvoiceInput where
  invoiceTypeCode : Option String
  invoiceNumber : String
  issueDate : Option String
  dueDate : Option String
  currency : Option String
  supplier : Option Party
  customer : Option Party
  lines : Option (List InvoiceLine)
  paymentIban : Option String
deriving DecidableEq, Repr

/-- Map Romanian diacritic letters to their base letters, both cases. -/
def stripDiacritic (c : Char) : Char :=
  if c = 'ă' ∨ c = 'â' then 'a'
  else if c = 'Ă' ∨ c = 'Â' then 'A'
  else if c = 'î' then 'i'
  else if c = 'Î' then 'I'
  else if c = 'ș' ∨ c = 'ş' then 's'
  else if c = 'Ș' ∨ c = 'Ş' then 'S'
  else if c = 'ț' ∨ c = 'ţ' then 't'
  else if c = 'Ț' ∨ c = 'Ţ' then 'T'
  else c

/-- Separator characters that county/sector normalization collapses. -/
def isSeparatorChar (c : Char) : Bool :=
  c = '-' ∨ c = '_' ∨ c = '.' ∨ c = ','

/-- Collapse runs of spaces to a single space. -/
def squeezeSpaces : List Char → List Char
  | [] => []
  | [c] => [c]
  | c :: d :: rest =>
    if c = ' ' ∧ d = ' ' then squeezeSpaces (d :: rest)
    else c :: squeezeSpaces (d :: rest)

/-- Modelled from the spec: the input normalization of
`src/ubl/address-sanitizer.ts` (the file is absent from this snapshot; only
its import in `InvoiceBuilder.ts` and its unit tests are present). Per §4.1:
trim, lower-case, strip diacritics, collapse separators (`-`, `_`, `.`, `,`,
multiple spaces) to a single space. -/
def normalizeInput (s : String) : String :=
  let cs := s.data.map (fun c => Char.toLower (stripDiacritic c))
  let cs := cs.map (fun c => if isSeparatorChar c then ' ' else c)
  let cs := squeezeSpaces cs
  let cs := ((cs.dropWhile (fun c => c = ' ')).reverse.dropWhile
    (fun c => c = ' ')).reverse
  String.mk cs

/-- Modelled from the spec: the county lookup table of
`src/ubl/address-sanitizer.ts`. Canonical normalized names (plus recognized
aliases and typos) for the 41 county codes `RO-XX` and the Bucharest code
`RO-B` (§4.1). -/
def countyTable : List (String × String) :=
  [("alba", "RO-AB"), ("arad", "RO-AR"), ("arges", "RO-AG"),
   ("bacau", "RO-BC"), ("bihor", "RO-BH"), ("bistrita nasaud", "RO-BN"),
   ("botosani", "RO-BT"), ("braila", "RO-BR"), ("brasov", "RO-BV"),
   ("buzau", "RO-BZ"), ("calarasi", "RO-CL"), ("caras severin", "RO-CS"),
   ("cluj", "RO-CJ"), ("constanta", "RO-CT"), ("covasna", "RO-CV"),
   ("dambovita", "RO-DB"), ("dimbovita", "RO-DB"), ("dolj", "RO-DJ"),
   ("galati", "RO-GL"), ("giurgiu", "RO-GR"), ("gorj", "RO-GJ"),
   ("harghita", "RO-HR"), ("hunedoara", "RO-HD"), ("ialomita", "RO-IL"),
   ("iasi", "RO-IS"), ("ilfov", "RO-IF"), ("maramures", "RO-MM"),
   ("mehedinti", "RO-MH"), ("mures", "RO-MS"), ("neamt", "RO-NT"),
   ("olt", "RO-OT"), ("prahova", "RO-PH"), ("salaj", "RO-SJ"),
   ("satu mare", "RO-SM"), ("sibiu", "RO-SB"), ("suceava", "RO-SV"),
   ("teleorman", "RO-TR"), ("timis", "RO-TM"), ("tulcea", "RO-TL"),
   ("valcea", "RO-VL"), ("vilcea", "RO-VL"), ("vaslui", "RO-VS"),
   ("vrancea", "RO-VN"), ("bucuresti", "RO-B"), ("buc", "RO-B")]

/-- Direct lookup of a normalized key in the county table. -/
def lookupCounty (key : String) : Option String :=
  (countyTable.find? (fun e => e.1 = key)).map (fun e => e.2)

/-- Modelled from the spec: the administrative qualifier words stripped by
the second lookup attempt of `sanitizeCounty` (§4.1), in normalized form. -/
def adminWords : List String :=
  ["judetul", "judet", "jud", "municipiul", "municipiu", "mun",
   "orasul", "oras", "comuna", "com"]

/-- Split a normalized (single-spaced) string into its words. -/
def wordsAux : List Char → List Char → List String
  | [], acc => if acc = [] then [] else [String.mk acc.reverse]
  | c :: rest, acc =>
    if c = ' ' then
      if acc = [] then wordsAux rest []
      else String.mk acc.reverse :: wordsAux rest []
    else wordsAux rest (c :: acc)

/-- The words of a normalized string. -/
def wordsOf (s : String) : List String := wordsAux s.data []

/-- Join words back with single spaces. -/
def joinWords : List String → String
  | [] => ""
  | [w] => w
  | w :: rest => w ++ " " ++ joinWords rest

/-- Strip leading and trailing administrative qualifier words. -/
def stripAdminWords (s : String) : String :=
  let ws := wordsOf s
  let ws := ws.dropWhile (fun w => adminWords.contains w)
  let ws := (ws.reverse.dropWhile (fun w => adminWords.contains w)).reverse
  joinWords ws

/-- Modelled from the spec: `sanitizeCounty` of
`src/ubl/address-sanitizer.ts` (§4.1). Null/empty/whitespace-only input
gives null; otherwise normalize, attempt a direct table lookup, and on
failure strip administrative qualifier words and retry exactly once; no
match gives null. Total, so it never throws. -/
def sanitizeCounty (input : Option String) : Option String :=
  match input with
  | none => none
  | some s =>
    if jsTrim s = "" then none
    else
      let normalized := normalizeInput s
      match lookupCounty normalized with
      | some code => some code
      | none => lookupCounty (stripAdminWords normalized)

/-- Modelled from the spec: the sector marker words of
`sanitizeBucharestSector` (§4.1), longest first so that compound words
decompose correctly. -/
def sectorMarkers : List String := ["sectorul", "sector", "sect", "s"]

/-- A word of one or two digits, as required for a sector number token. -/
def isShortDigitWord (w : String) : Bool :=
  decide (1 ≤ w.data.length) ∧ decide (w.data.length ≤ 2) ∧ w.data.all Char.isDigit

/-- The numeric value of a digit word. -/
def digitsToNat (w : String) : Nat :=
  w.data.foldl (fun n c => 10 * n + (c.toNat - '0'.toNat)) 0

/-- A sector marker fused with its digits in one word (`sector3`, `s06`). -/
def sectorDigitsOfWord (w : String) : Option String :=
  sectorMarkers.findSome? (fun m =>
    if w = m then none
    else if m.data.isPrefixOf w.data then
      let rest := String.mk (w.data.drop m.data.length)
      if isShortDigitWord rest then some rest else none
    else none)

/-- Scan the word list for the first sector-number token: a fused
marker+digits word, or a bare marker word followed by a digit word. -/
def findSectorToken : List String → Option String
  | [] => none
  | w :: rest =>
    match sectorDigitsOfWord w with
    | some ds => some ds
    | none =>
      if sectorMarkers.contains w then
        match rest with
        | r :: _ => if isShortDigitWord r then some r else findSectorToken rest
        | [] => none
      else findSectorToken rest

/-- Modelled from the spec: `sanitizeBucharestSector` of
`src/ubl/address-sanitizer.ts` (§4.1). Null/empty/whitespace gives null;
otherwise normalize and extract the first sector-number token anywhere in
the string; numbers 1–6 (zero-padded accepted) give `SECTOR<N>`, anything
else null. -/
def sanitizeBucharestSector (input : Option String) : Option String :=
  match input with
  | none => none
  | some s =>
    if jsTrim s = "" then none
    else
      match findSectorToken (wordsOf (normalizeInput s)) with
      | none => none
      | some ds =>
        let n := digitsToNat ds
        if 1 ≤ n ∧ n ≤ 6 then some ("SECTOR" ++ toString n) else none

/-- Modelled from the spec: `isBucharest` of
`src/ubl/address-sanitizer.ts` (§4.1): case-insensitive, whitespace-trimmed
comparison against `RO-B`; null gives false. -/
def isBucharest (county : Option String) : Bool :=
  match county with
  | none => false
  | some c => String.mk ((jsTrim c).data.map Char.toLower) = "ro-b"

/-- Modelled from the spec: `normalizeVatNumber` of `src/utils/validators.ts`
(the function body is absent from this snapshot; only its import and its call
site in `buildPartyXml` are present). The spec constrains it only as the
VAT-normalized company identifier; modelled as trimming and upper-casing. -/
def normalizeVatNumber (vat : String) : String :=
  String.mk ((jsTrim vat).data.map Char.toUpper)

/-- Modelled from the spec: `formatDateForAnaf` of `src/utils/dateUtils.ts`
(file absent from this snapshot). The spec says only that issue/due dates
are formatted into the target date representation; dates are modelled as
already-formatted strings and the formatter as the identity. -/
def formatDateForAnaf (d : String) : String := d

/-- Modelled from the spec: the `src/constants.ts` values used by the
builder (file absent from this snapshot; defaults are stated in §3/§4.3 and
the type declarations). -/
def UBL_CUSTOMIZATION_ID : String :=
  "urn:cen.eu:en16931:2017#compliant#urn:efactura.mfinante.ro:CIUS-RO:1.0.1"

/-- Default currency code (constant `DEFAULT_CURRENCY`). -/
def DEFAULT_CURRENCY : String := "RON"

/-- Default country code (constant `DEFAULT_COUNTRY_CODE`). -/
def DEFAULT_COUNTRY_CODE : String := "RO"

/-- Default unit-of-measure code (constant `DEFAULT_UNIT_CODE`). -/
def DEFAULT_UNIT_CODE : String := "EA"

/-- Default invoice type code (`InvoiceTypeCode.COMMERCIAL_INVOICE`). -/
def COMMERCIAL_INVOICE : String := "380"

/-- Internal tax group (interface `TaxGroup` in `InvoiceBuilder.ts`). -/
structure TaxGroup where
  categoryId : String
  percent : ℚ
  taxableAmount : ℚ
  taxAmount : ℚ
  exemptionReasonCode : Option String
deriving DecidableEq, Repr

/-- `calculateLineExtension` (InvoiceBuilder.ts lines 93–97): round the unit
price to two decimals first, then round the product with the quantity. -/
def calculateLineExtension (line : InvoiceLine) : ℚ :=
  let roundedUnitPrice := round2 line.unitPrice
  round2 (line.quantity * roundedUnitPrice)

/-- The effective tax percent of a line: `line.taxPercent || 0`. -/
def effTaxPercent (line : InvoiceLine) : ℚ := line.taxPercent.getD 0

/-- The per-line tax amount computed inside `groupLinesByTax` (line 111):
`parseFloat((lineExtension * (taxPercent / 100)).toFixed(2))`. -/
def lineTaxAmount (line : InvoiceLine) : ℚ :=
  round2 (calculateLineExtension line * (effTaxPercent line / 100))

/-- The tax category and exemption reason code selected per line inside
`groupLinesByTax` (lines 113–124): non-VAT-payer supplier gives "O" with
code "VATEX-EU-O"; otherwise "S" for positive percent, else "Z". -/
def groupLineCategory (isSupplierVatPayer : Bool) (taxPercent : ℚ) :
    String × Option String :=
  if !isSupplierVatPayer then ("O", some "VATEX-EU-O")
  else if taxPercent > 0 then ("S", none)
  else ("Z", none)

/-- The tax category recomputed per emitted line inside `buildInvoiceXml`
(lines 447–455), without the exemption code. -/
def lineTaxCategory (isSupplierVatPayer : Bool) (taxPercent : ℚ) : String :=
  if !isSupplierVatPayer then "O"
  else if taxPercent > 0 then "S"
  else "Z"

/-- The `Map` update of `groupLinesByTax` (lines 126–140): the first group
with the same (category, percent) key accumulates with re-rounding, in
place; otherwise a new group is appended, preserving insertion order. -/
def upsertGroup (gs : List TaxGroup) (cat : String) (percent ext tax : ℚ)
    (ex : Option String) : List TaxGroup :=
  match gs with
  | [] => [⟨cat, percent, ext, tax, ex⟩]
  | g :: rest =>
    if g.categoryId = cat ∧ g.percent = percent then
      ⟨g.categoryId, g.percent, round2 (g.taxableAmount + ext),
        round2 (g.taxAmount + tax), g.exemptionReasonCode⟩ :: rest
    else g :: upsertGroup rest cat percent ext tax ex

/-- One iteration of the `lines.forEach` body of `groupLinesByTax`
(lines 108–141). -/
def groupStep (isSupplierVatPayer : Bool) (gs : List TaxGroup)
    (line : InvoiceLine) : List TaxGroup :=
  upsertGroup gs (groupLineCategory isSupplierVatPayer (effTaxPercent line)).1
    (effTaxPercent line) (calculateLineExtension line) (lineTaxAmount line)
    (groupLineCategory isSupplierVatPayer (effTaxPercent line)).2

/-- `groupLinesByTax` (lines 105–144): fold the lines through the keyed
accumulation; `Array.from(map.values())` preserves insertion order. -/
def groupLinesByTax (lines : List InvoiceLine) (isSupplierVatPayer : Bool) :
    List TaxGroup :=
  lines.foldl (groupStep isSupplierVatPayer) []

/-- The single validation error kind (`AnafValidationError`). -/
structure AnafValidationError where
  message : String
deriving DecidableEq, Repr

/-- `validateAddress` (lines 213–225). -/
def validateAddress (address : Address) (role : String) :
    Except AnafValidationError Unit :=
  if jsTrim address.street = "" then
    .error ⟨role ++ " street address is required"⟩
  else if jsTrim address.city = "" then
    .error ⟨role ++ " city is required"⟩
  else if jsTrim address.postalZone = "" then
    .error ⟨role ++ " postal zone is required"⟩
  else .ok ()

/-- `validateParty` (lines 192–206). -/
def validateParty (party : Party) (role : String) :
    Except AnafValidationError Unit :=
  if jsTrim party.registrationName = "" then
    .error ⟨role ++ " registration name is required"⟩
  else if jsTrim party.companyId = "" then
    .error ⟨role ++ " company ID is required"⟩
  else
    match party.address with
    | none => .error ⟨role ++ " address is required"⟩
    | some a => validateAddress a role

/-- `validateLine` (lines 232–250); `index` is 0-based, messages 1-based. -/
def validateLine (line : InvoiceLine) (index : Nat) :
    Except AnafValidationError Unit :=
  if jsTrim line.name = "" then
    .error ⟨"Line " ++ toString (index + 1) ++ ": Name is required"⟩
  else if line.quantity ≤ 0 then
    .error ⟨"Line " ++ toString (index + 1) ++
      ": Quantity must be a positive number"⟩
  else if line.unitPrice < 0 then
    .error ⟨"Line " ++ toString (index + 1) ++
      ": Unit price must be a non-negative number"⟩
  else
    match line.taxPercent with
    | some p =>
      if p < 0 ∨ 100 < p then
        .error ⟨"Line " ++ toString (index + 1) ++
          ": Tax percent must be between 0 and 100"⟩
      else .ok ()
    | none => .ok ()

/-- The `lines.forEach(validateLine)` loop with early exit on throw. -/
def validateLines (ls : List InvoiceLine) (index : Nat) :
    Except AnafValidationError Unit :=
  match ls with
  | [] => .ok ()
  | l :: rest =>
    match validateLine l index with
    | .error e => .error e
    | .ok () => validateLines rest (index + 1)

/-- `validateInvoiceInput` (lines 151–185): invoice number, issue date,
supplier, customer, lines presence, then the per-line checks in order. -/
def validateInvoiceInput (input : InvoiceInput) :
    Except AnafValidationError Unit :=
  if jsTrim input.invoiceNumber = "" then
    .error ⟨"Invoice number is required"⟩
  else if input.issueDate.isNone then
    .error ⟨"Issue date is required"⟩
  else
    match input.supplier with
    | none => .error ⟨"Supplier information is required"⟩
    | some s =>
      match validateParty s "Supplier" with
      | .error e => .error e
      | .ok () =>
        match input.customer with
        | none => .error ⟨"Customer information is required"⟩
        | some c =>
          match validateParty c "Customer" with
          | .error e => .error e
          | .ok () =>
            match input.lines with
            | none => .error ⟨"Invoice lines array is required"⟩
            | some ls => validateLines ls 0

/-- XML document trees as built by the xmlbuilder2 `ele`/`txt` chains. -/
inductive Xml where
  | elem (name : String) (attrs : List (String × String)) (children : List Xml) : Xml
  | text (s : String) : Xml
deriving Repr

/-- The children of an element node. -/
def Xml.childrenOf : Xml → List Xml
  | .elem _ _ cs => cs
  | .text _ => []

/-- The i-th child of an element node. -/
def Xml.child (x : Xml) (i : Nat) : Xml := (x.childrenOf.getD i (.text ""))

/-- The tag name of a node (empty for text). -/
def Xml.nameOf : Xml → String
  | .elem n _ _ => n
  | .text _ => ""

/-- Placeholder address: `buildPartyXml` is only reached after validation
guaranteed the party's address to be present, so this value is unreachable. -/
def emptyAddress : Address := ⟨"", "", "", none, none⟩

/-- Placeholder party, unreachable after validation (see `emptyAddress`). -/
def emptyParty : Party := ⟨"", "", none, none⟩

/-- The `cac:PostalAddress` block of `buildPartyXml` (lines 35–59): county
via `sanitizeCounty`, city replaced by the sanitized sector when the county
resolves to Bucharest, every text defaulting to the empty string. -/
def buildPostalAddressXml (address : Address) : Xml :=
  let county := sanitizeCounty address.county
  let city := if isBucharest county then sanitizeBucharestSector (some address.city)
              else some address.city
  .elem "cac:PostalAddress" []
    [.elem "cbc:StreetName" [] [.text address.street],
     .elem "cbc:CityName" [] [.text (city.getD "")],
     .elem "cbc:PostalZone" [] [.text address.postalZone],
     .elem "cbc:CountrySubentity" [] [.text (county.getD "")],
     .elem "cac:Country" []
       [.elem "cbc:IdentificationCode" []
         [.text (jsOr address.countryCode DEFAULT_COUNTRY_CODE)]]]

/-- The `cac:PartyLegalEntity` block of `buildPartyXml` (lines 77–85). -/
def partyLegalEntityXml (party : Party) : Xml :=
  .elem "cac:PartyLegalEntity" []
    [.elem "cbc:RegistrationName" [] [.text party.registrationName],
     .elem "cbc:CompanyID" [] [.text party.companyId]]

/-- `buildPartyXml` (lines 31–86): postal address, a `cac:PartyTaxScheme`
only for VAT payers, then the legal entity. -/
def buildPartyXml (tagName : String) (party : Party) : Xml :=
  let address := party.address.getD emptyAddress
  .elem tagName []
    [.elem "cac:Party" []
      ([buildPostalAddressXml address] ++
       (if party.isVatPayer.getD false then
          [Xml.elem "cac:PartyTaxScheme" []
            [.elem "cbc:CompanyID" [] [.text (normalizeVatNumber party.companyId)],
             .elem "cac:TaxScheme" [] [.elem "cbc:ID" [] [.text "VAT"]]]]
        else []) ++
       [partyLegalEntityXml party])]

/-- The resolved currency: `input.currency || DEFAULT_CURRENCY` (line 303). -/
def currencyOf (input : InvoiceInput) : String := jsOr input.currency DEFAULT_CURRENCY

/-- The resolved supplier VAT flag: `!!input.supplier.isVatPayer` (line 304). -/
def isSupplierVatPayerOf (input : InvoiceInput) : Bool :=
  match input.supplier with
  | some p => p.isVatPayer.getD false
  | none => false

/-- The tax groups of an invoice (line 312): empty lines give no groups. -/
def taxGroupsOf (input : InvoiceInput) : List TaxGroup :=
  let lines := input.lines.getD []
  if lines.length > 0 then groupLinesByTax lines (isSupplierVatPayerOf input)
  else []

/-- `taxGroups.reduce((sum, group) => sum + group.taxableAmount, 0)`
(line 313). -/
def totalTaxableAmount (gs : List TaxGroup) : ℚ :=
  gs.foldl (fun s g => s + g.taxableAmount) 0

/-- `taxGroups.reduce((sum, group) => sum + group.taxAmount, 0)` (line 314). -/
def totalTaxAmountOf (gs : List TaxGroup) : ℚ :=
  gs.foldl (fun s g => s + g.taxAmount) 0

/-- `parseFloat((totalTaxableAmount + totalTaxAmount).toFixed(2))`
(line 315). -/
def grandTotalOf (gs : List TaxGroup) : ℚ :=
  round2 (totalTaxableAmount gs + totalTaxAmountOf gs)

/-- The formatted issue date (line 308); present after validation. -/
def issueDateOf (input : InvoiceInput) : String :=
  formatDateForAnaf (input.issueDate.getD "")

/-- The formatted due date (line 309): defaults to the issue date. -/
def dueDateOf (input : InvoiceInput) : String :=
  match input.dueDate with
  | some d => if d = "" then issueDateOf input else formatDateForAnaf d
  | none => issueDateOf input

/-- The invoice header elements (lines 325–343). -/
def invoiceHeaderXml (input : InvoiceInput) : List Xml :=
  [.elem "cbc:CustomizationID" [] [.text UBL_CUSTOMIZATION_ID],
   .elem "cbc:ID" [] [.text input.invoiceNumber],
   .elem "cbc:IssueDate" [] [.text (issueDateOf input)],
   .elem "cbc:DueDate" [] [.text (dueDateOf input)],
   .elem "cbc:InvoiceTypeCode" [] [.text (jsOr input.invoiceTypeCode COMMERCIAL_INVOICE)],
   .elem "cbc:DocumentCurrencyCode" [] [.text (currencyOf input)]]

/-- The optional `cac:PaymentMeans` block (lines 350–362). -/
def paymentMeansXml (input : InvoiceInput) : List Xml :=
  match input.paymentIban with
  | some iban =>
    if iban = "" then []
    else
      [Xml.elem "cac:PaymentMeans" []
        [.elem "cbc:PaymentMeansCode" [] [.text "30"],
         .elem "cac:PayeeFinancialAccount" [] [.elem "cbc:ID" [] [.text iban]]]]
  | none => []

/-- One `cac:TaxSubtotal` per tax group (lines 373–396): amounts, category
id and percent, the exemption reason code when present, the VAT scheme. -/
def buildTaxSubtotalXml (currency : String) (group : TaxGroup) : Xml :=
  .elem "cac:TaxSubtotal" []
    [.elem "cbc:TaxableAmount" [("currencyID", currency)]
       [.text (toFixed2 group.taxableAmount)],
     .elem "cbc:TaxAmount" [("currencyID", currency)]
       [.text (toFixed2 group.taxAmount)],
     .elem "cac:TaxCategory" []
       ([Xml.elem "cbc:ID" [] [.text group.categoryId],
         Xml.elem "cbc:Percent" [] [.text (toFixed2 group.percent)]] ++
        (match group.exemptionReasonCode with
         | some code => [Xml.elem "cbc:TaxExemptionReasonCode" [] [.text code]]
         | none => []) ++
        [Xml.elem "cac:TaxScheme" [] [.elem "cbc:ID" [] [.text "VAT"]]])]

/-- The default zero subtotal emitted for empty invoices (lines 398–421). -/
def defaultTaxSubtotalXml (currency : String) : Xml :=
  .elem "cac:TaxSubtotal" []
    [.elem "cbc:TaxableAmount" [("currencyID", currency)] [.text "0.00"],
     .elem "cbc:TaxAmount" [("currencyID", currency)] [.text "0.00"],
     .elem "cac:TaxCategory" []
       [.elem "cbc:ID" [] [.text "S"],
        .elem "cbc:Percent" [] [.text "0.00"],
        .elem "cac:TaxScheme" [] [.elem "cbc:ID" [] [.text "VAT"]]]]

/-- The `cac:TaxTotal` block (lines 365–421). -/
def taxTotalXml (currency : String) (groups : List TaxGroup) (totalTax : ℚ) : Xml :=
  .elem "cac:TaxTotal" []
    (Xml.elem "cbc:TaxAmount" [("currencyID", currency)] [.text (toFixed2 totalTax)] ::
     (if groups.length > 0 then groups.map (buildTaxSubtotalXml currency)
      else [defaultTaxSubtotalXml currency]))

/-- The `cac:LegalMonetaryTotal` block (lines 424–438). -/
def legalMonetaryTotalXml (currency : String) (totalTaxable grandTotal : ℚ) : Xml :=
  .elem "cac:LegalMonetaryTotal" []
    [.elem "cbc:LineExtensionAmount" [("currencyID", currency)]
       [.text (toFixed2 totalTaxable)],
     .elem "cbc:TaxExclusiveAmount" [("currencyID", currency)]
       [.text (toFixed2 totalTaxable)],
     .elem "cbc:TaxInclusiveAmount" [("currencyID", currency)]
       [.text (toFixed2 grandTotal)],
     .elem "cbc:PayableAmount" [("currencyID", currency)]
       [.text (toFixed2 grandTotal)]]

/-- One `cac:InvoiceLine` element (lines 441–499). -/
def buildLineXml (currency : String) (isSupplierVatPayer : Bool) (index : Nat)
    (line : InvoiceLine) : Xml :=
  let lineId := jsOr line.id (toString (index + 1))
  let lineExtension := calculateLineExtension line
  let taxPercent := effTaxPercent line
  let roundedUnitPrice := round2 line.unitPrice
  .elem "cac:InvoiceLine" []
    [.elem "cbc:ID" [] [.text lineId],
     .elem "cbc:InvoicedQuantity" [("unitCode", jsOr line.unitCode DEFAULT_UNIT_CODE)]
       [.text (ratText line.quantity)],
     .elem "cbc:LineExtensionAmount" [("currencyID", currency)]
       [.text (toFixed2 lineExtension)],
     .elem "cac:Item" []
       ([Xml.elem "cbc:Name" [] [.text line.name]] ++
        (match line.description with
         | some d => if d = "" then [] else [Xml.elem "cbc:Description" [] [.text d]]
         | none => []) ++
        [Xml.elem "cac:ClassifiedTaxCategory" []
          [.elem "cbc:ID" [] [.text (lineTaxCategory isSupplierVatPayer taxPercent)],
           .elem "cbc:Percent" [] [.text (toFixed2 taxPercent)],
           .elem "cac:TaxScheme" [] [.elem "cbc:ID" [] [.text "VAT"]]]]),
     .elem "cac:Price" []
       [.elem "cbc:PriceAmount" [("currencyID", currency)]
         [.text (toFixed2 roundedUnitPrice)]]]

/-- All children of the `Invoice` root element in document order. -/
def invoiceChildren (input : InvoiceInput) : List Xml :=
  invoiceHeaderXml input ++
  [buildPartyXml "cac:AccountingSupplierParty" (input.supplier.getD emptyParty),
   buildPartyXml "cac:AccountingCustomerParty" (input.customer.getD emptyParty)] ++
  paymentMeansXml input ++
  [taxTotalXml (currencyOf input) (taxGroupsOf input)
     (totalTaxAmountOf (taxGroupsOf input)),
   legalMonetaryTotalXml (currencyOf input) (totalTaxableAmount (taxGroupsOf input))
     (grandTotalOf (taxGroupsOf input))] ++
  (input.lines.getD []).enum.map
    (fun p => buildLineXml (currencyOf input) (isSupplierVatPayerOf input) p.1 p.2)

/-- The assembled `Invoice` document (lines 318–501). -/
def buildInvoiceDoc (input : InvoiceInput) : Xml :=
  .elem "Invoice"
    [("xmlns", "urn:oasis:names:specification:ubl:schema:xsd:Invoice-2"),
     ("xmlns:cbc", "urn:oasis:names:specification:ubl:schema:xsd:CommonBasicComponents-2"),
     ("xmlns:cac", "urn:oasis:names:specification:ubl:schema:xsd:CommonAggregateComponents-2")]
    (invoiceChildren input)

/-- `buildInvoiceXml` (lines 298–502): validate, then construct. The thrown
`AnafValidationError` is the `Except` error; no document is produced then. -/
def buildInvoiceXml (input : InvoiceInput) : Except AnafValidationError Xml :=
  match validateInvoiceInput input with
  | .error e => .error e
  | .ok () => .ok (buildInvoiceDoc input)

/-- First-seen insertion of a key: the spec's description of how the group
map accrues (category, percent) keys. -/
def insertKey (ks : List (String × ℚ)) (k : String × ℚ) : List (String × ℚ) :=
  if k ∈ ks then ks else ks ++ [k]

/-- The (category, percent) key of a line; the source's map key
`` `${categoryId}-${taxPercent}` `` is this pair (the JavaScript rendering
of a number is injective, and category codes contain no dash). -/
def lineKey (isSupplierVatPayer : Bool) (line : InvoiceLine) : String × ℚ :=
  ((groupLineCategory isSupplierVatPayer (effTaxPercent line)).1, effTaxPercent line)

/-- The distinct (category, percent) keys in first-seen order, as the spec
states the group emission order. -/
def firstSeenKeys (isSupplierVatPayer : Bool) (lines : List InvoiceLine) :
    List (String × ℚ) :=
  lines.foldl (fun ks l => insertKey ks (lineKey isSupplierVatPayer l)) []

/-- The lines belonging to one (category, percent) key. -/
def linesForKey (isSupplierVatPayer : Bool) (lines : List InvoiceLine)
    (k : String × ℚ) : List InvoiceLine :=
  lines.filter (fun l => decide (lineKey isSupplierVatPayer l = k))

/-- The spec's accumulation: sum the rounded per-line amounts, re-rounding
to two decimals after each addition. -/
def accumRound (xs : List ℚ) : ℚ := xs.foldl (fun a x => round2 (a + x)) 0

/-- The tax group the spec prescribes for one key: accumulated rounded
amounts over exactly that key's lines, with the "O" exemption code. -/
def specGroup (isSupplierVatPayer : Bool) (lines : List InvoiceLine)
    (k : String × ℚ) : TaxGroup :=
  ⟨k.1, k.2,
   accumRound ((linesForKey isSupplierVatPayer lines k).map calculateLineExtension),
   accumRound ((linesForKey isSupplierVatPayer lines k).map lineTaxAmount),
   if k.1 = "O" then some "VATEX-EU-O" else none⟩

/-- The specification's statement of `groupLinesByTax`: one group per
distinct key, in first-seen order. -/
def groupLinesByTaxSpec (lines : List InvoiceLine) (isSupplierVatPayer : Bool) :
    List TaxGroup :=
  (firstSeenKeys isSupplierVatPayer lines).map
    (specGroup isSupplierVatPayer lines)

/-- The in-place accumulation applied to a group when its key is hit again. -/
def updateGroup (g : TaxGroup) (ext tax : ℚ) : TaxGroup :=
  ⟨g.categoryId, g.percent, round2 (g.taxableAmount + ext),
   round2 (g.taxAmount + tax), g.exemptionReasonCode⟩

/-- The ordered condition/message pairs of `validateAddress`, as the spec
lists them. -/
def addressChecks (role : String) (address : Address) : List (Bool × String) :=
  [(decide (jsTrim address.street = ""), role ++ " street address is required"),
   (decide (jsTrim address.city = ""), role ++ " city is required"),
   (decide (jsTrim address.postalZone = ""), role ++ " postal zone is required")]

/-- The ordered condition/message pairs of `validateParty`: names, then the
address presence, then the address fields. -/
def partyChecks (role : String) (party : Party) : List (Bool × String) :=
  [(decide (jsTrim party.registrationName = ""), role ++ " registration name is required"),
   (decide (jsTrim party.companyId = ""), role ++ " company ID is required")] ++
  (match party.address with
   | none => [(true, role ++ " address is required")]
   | some a => addressChecks role a)

/-- The ordered condition/message pairs of `validateLine` for the 0-based
index `i` (messages carry the 1-based index). -/
def lineChecks (i : Nat) (line : InvoiceLine) : List (Bool × String) :=
  [(decide (jsTrim line.name = ""),
    "Line " ++ toString (i + 1) ++ ": Name is required"),
   (decide (line.quantity ≤ 0),
    "Line " ++ toString (i + 1) ++ ": Quantity must be a positive number"),
   (decide (line.unitPrice < 0),
    "Line " ++ toString (i + 1) ++ ": Unit price must be a non-negative number"),
   ((match line.taxPercent with
     | some p => decide (p < 0 ∨ 100 < p)
     | none => false),
    "Line " ++ toString (i + 1) ++ ": Tax percent must be between 0 and 100")]

/-- The full ordered check list of the validator, as §4.4 states the order:
invoice number, issue date, supplier presence and fields, customer presence
and fields, lines presence, then the per-line checks in sequence order. -/
def checkList (input : InvoiceInput) : List (Bool × String) :=
  [(decide (jsTrim input.invoiceNumber = ""), "Invoice number is required"),
   (input.issueDate.isNone, "Issue date is required")] ++
  (match input.supplier with
   | none => [(true, "Supplier information is required")]
   | some p => partyChecks "Supplier" p) ++
  (match input.customer with
   | none => [(true, "Customer information is required")]
   | some p => partyChecks "Customer" p) ++
  (match input.lines with
   | none => [(true, "Invoice lines array is required")]
   | some ls => ((ls.enumFrom 0).map (fun p => lineChecks p.1 p.2)).flatten)

/-- The first failing check decides the error: the validator raises on the
first violation found. -/
def firstFailing (checks : List (Bool × String)) : Except AnafValidationError Unit :=
  match checks with
  | [] => .ok ()
  | (b, msg) :: rest => if b then .error ⟨msg⟩ else firstFailing rest

/-- A string showing exactly two decimal places: some prefix, a dot, then a
two-character fractional part. -/
def twoDecimalText (s : String) : Prop :=
  ∃ pre post, s = pre ++ "." ++ post ∧ post.length = 2

/-- A concrete invoice line used to instantiate witnesses. -/
def demoLine : InvoiceLine := ⟨none, "Test Product", none, 1, none, 100, some 19⟩

/-- A concrete supplier used to instantiate witnesses. -/
def demoSupplier : Party :=
  ⟨"Furnizor SRL", "RO12345678", some true,
   some ⟨"Str. Exemplu 1", "Sector 3", "010101", some "Bucuresti", none⟩⟩

/-- A concrete customer used to instantiate witnesses. -/
def demoCustomer : Party :=
  ⟨"Client SRL", "RO87654321", some true,
   some ⟨"Str. Client 2", "Cluj-Napoca", "400001", some "Cluj", none⟩⟩

/-- A concrete valid invoice input used to instantiate witnesses. -/
def demoInput : InvoiceInput :=
  ⟨none, "INV-2024-001", some "2024-01-15", none, none, some demoSupplier,
   some demoCustomer, some [demoLine], none⟩

/-- The same input with an empty line list. -/
def demoInputEmpty : InvoiceInput :=
  ⟨none, "INV-2024-001", some "2024-01-15", none, none, some demoSupplier,
   some demoCustomer, some [], none⟩

theorem round2_eq_of (q : ℚ) (n : ℤ) (h1 : (n : ℚ) ≤ q * 100 + 1/2)
    (h2 : q * 100 + 1/2 < n + 1) : round2 q = (n : ℚ) / 100 := by
  rw [round2, Int.floor_eq_iff.mpr ⟨h1, h2⟩]

theorem toFixed2_eq_of (q : ℚ) (n : ℤ) (h1 : (n : ℚ) ≤ q * 100 + 1/2)
    (h2 : q * 100 + 1/2 < n + 1) :
    toFixed2 q = (if n < 0 then "-" else "") ++ toString (n.natAbs / 100) ++ "." ++
      String.mk [Nat.digitChar (n.natAbs / 10 % 10), Nat.digitChar (n.natAbs % 10)] := by
  rw [toFixed2, Int.floor_eq_iff.mpr ⟨h1, h2⟩]

theorem round2_idem (q : ℚ) : round2 (round2 q) = round2 q := by
  rw [round2, round2]
  have h : ((⌊q * 100 + 1/2⌋ : ℚ) / 100) * 100 + 1/2 = (⌊q * 100 + 1/2⌋ : ℚ) + 1/2 := by
    field_simp
  rw [h, Int.floor_int_add]
  norm_num

theorem round2_calculateLineExtension (line : InvoiceLine) :
    round2 (calculateLineExtension line) = calculateLineExtension line := by
  rw [calculateLineExtension, round2_idem]

theorem round2_lineTaxAmount (line : InvoiceLine) :
    round2 (lineTaxAmount line) = lineTaxAmount line := by
  rw [lineTaxAmount, round2_idem]

theorem toFixed2_twoDecimal (q : ℚ) : twoDecimalText (toFixed2 q) := by
  refine ⟨(if (⌊q * 100 + 1/2⌋ : ℤ) < 0 then "-" else "") ++
    toString ((⌊q * 100 + 1/2⌋ : ℤ).natAbs / 100),
    String.mk [Nat.digitChar ((⌊q * 100 + 1/2⌋ : ℤ).natAbs / 10 % 10),
      Nat.digitChar ((⌊q * 100 + 1/2⌋ : ℤ).natAbs % 10)], ?_, rfl⟩
  rw [toFixed2]

/-- C1: for every invoice line with positive quantity, non-negative unit
price and tax percent in [0,100], the line extension equals
round(round(unitPrice, 2) * quantity, 2) — unit price rounded first, the
product rounded after, quantity unrounded — and the per-line tax equals
round(lineExtension * taxPercent/100, 2), half up; in particular
quantity=5, unitPrice=20.50, taxPercent=19 gives extension 102.50, tax
19.48 and total 121.98. -/
theorem claim1 :
    (∀ line : InvoiceLine, 0 < line.quantity → 0 ≤ line.unitPrice →
      0 ≤ effTaxPercent line → effTaxPercent line ≤ 100 →
      calculateLineExtension line = round2 (round2 line.unitPrice * line.quantity) ∧
      lineTaxAmount line =
        round2 (calculateLineExtension line * (effTaxPercent line / 100))) ∧
    (∀ line : InvoiceLine, line.quantity = 5 → line.unitPrice = 20.5 →
      line.taxPercent = some 19 →
      calculateLineExtension line = 102.5 ∧ lineTaxAmount line = 19.48 ∧
      round2 (calculateLineExtension line + lineTaxAmount line) = 121.98) := by
  constructor
  · intro line _ _ _ _
    refine ⟨?_, rfl⟩
    rw [calculateLineExtension, mul_comm]
  · intro line hq hp ht
    have hr : round2 line.unitPrice = 20.5 := by
      rw [hp, round2_eq_of _ 2050 (by norm_num) (by norm_num)]
      norm_num
    have heff : effTaxPercent line = 19 := by rw [effTaxPercent, ht]; rfl
    have hext : calculateLineExtension line = 102.5 := by
      rw [calculateLineExtension, hr, hq,
        round2_eq_of _ 10250 (by norm_num) (by norm_num)]
      norm_num
    have htax : lineTaxAmount line = 19.48 := by
      rw [lineTaxAmount, hext, heff,
        round2_eq_of _ 1948 (by norm_num) (by norm_num)]
      norm_num
    refine ⟨hext, htax, ?_⟩
    rw [hext, htax, round2_eq_of _ 12198 (by norm_num) (by norm_num)]
    norm_num

/-- Witness for C1 at the concrete line of the claim. -/
theorem claim1_witness :
    (calculateLineExtension ⟨none, "Test Item", none, 5, none, 20.5, some 19⟩ =
       round2 (round2 (InvoiceLine.unitPrice ⟨none, "Test Item", none, 5, none, 20.5, some 19⟩) *
         InvoiceLine.quantity ⟨none, "Test Item", none, 5, none, 20.5, some 19⟩)) ∧
    (calculateLineExtension ⟨none, "Test Item", none, 5, none, 20.5, some 19⟩ = 102.5 ∧
     lineTaxAmount ⟨none, "Test Item", none, 5, none, 20.5, some 19⟩ = 19.48 ∧
     round2 (calculateLineExtension ⟨none, "Test Item", none, 5, none, 20.5, some 19⟩ +
       lineTaxAmount ⟨none, "Test Item", none, 5, none, 20.5, some 19⟩) = 121.98) :=
  ⟨(claim1.1 ⟨none, "Test Item", none, 5, none, 20.5, some 19⟩
      (by norm_num) (by norm_num) (by norm_num [effTaxPercent])
      (by norm_num [effTaxPercent])).1,
   claim1.2 ⟨none, "Test Item", none, 5, none, 20.5, some 19⟩ rfl rfl rfl⟩

theorem mem_insertKey (ks : List (String × ℚ)) (k x : String × ℚ) :
    x ∈ insertKey ks k ↔ x ∈ ks ∨ x = k := by
  by_cases h : k ∈ ks
  · simp only [insertKey, if_pos h]
    constructor
    · exact fun hx => Or.inl hx
    · rintro (hx | rfl)
      · exact hx
      · exact h
  · simp [insertKey, if_neg h]

theorem nodup_insertKey (ks : List (String × ℚ)) (k : String × ℚ)
    (h : ks.Nodup) : (insertKey ks k).Nodup := by
  by_cases hk : k ∈ ks
  · simpa [insertKey, if_pos hk] using h
  · rw [insertKey, if_neg hk]
    refine List.Nodup.append h (List.nodup_singleton k) ?_
    intro a ha hb
    rw [List.mem_singleton] at hb
    exact hk (hb ▸ ha)

theorem mem_foldl_insertKey (v : Bool) (ls : List InvoiceLine) :
    ∀ (acc : List (String × ℚ)) (x : String × ℚ),
    (x ∈ ls.foldl (fun ks l => insertKey ks (lineKey v l)) acc ↔
      x ∈ acc ∨ x ∈ ls.map (lineKey v)) := by
  induction ls with
  | nil => intro acc x; simp
  | cons l ls ih =>
    intro acc x
    rw [List.foldl_cons, ih, mem_insertKey]
    simp
    tauto

theorem nodup_foldl_insertKey (v : Bool) (ls : List InvoiceLine) :
    ∀ acc : List (String × ℚ), acc.Nodup →
    (ls.foldl (fun ks l => insertKey ks (lineKey v l)) acc).Nodup := by
  induction ls with
  | nil => intro acc h; simpa using h
  | cons l ls ih =>
    intro acc h
    exact ih _ (nodup_insertKey _ _ h)

theorem firstSeenKeys_mem (v : Bool) (ls : List InvoiceLine) (x : String × ℚ) :
    x ∈ firstSeenKeys v ls ↔ x ∈ ls.map (lineKey v) := by
  rw [firstSeenKeys, mem_foldl_insertKey]
  simp

theorem firstSeenKeys_nodup (v : Bool) (ls : List InvoiceLine) :
    (firstSeenKeys v ls).Nodup :=
  nodup_foldl_insertKey v ls [] List.nodup_nil

theorem groupLinesByTax_append (v : Bool) (xs : List InvoiceLine)
    (x : InvoiceLine) :
    groupLinesByTax (xs ++ [x]) v = groupStep v (groupLinesByTax xs v) x := by
  simp [groupLinesByTax, List.foldl_append]

theorem firstSeenKeys_append (v : Bool) (xs : List InvoiceLine)
    (x : InvoiceLine) :
    firstSeenKeys v (xs ++ [x]) =
      insertKey (firstSeenKeys v xs) (lineKey v x) := by
  simp [firstSeenKeys, List.foldl_append]

theorem accumRound_append (xs : List ℚ) (a : ℚ) :
    accumRound (xs ++ [a]) = round2 (accumRound xs + a) := by
  simp [accumRound, List.foldl_append]

theorem linesForKey_append (v : Bool) (xs : List InvoiceLine) (x : InvoiceLine)
    (k : String × ℚ) :
    linesForKey v (xs ++ [x]) k =
      linesForKey v xs k ++ (if lineKey v x = k then [x] else []) := by
  by_cases h : lineKey v x = k <;> simp [linesForKey, List.filter_append, h]

theorem specGroup_append_ne (v : Bool) (xs : List InvoiceLine) (x : InvoiceLine)
    (k : String × ℚ) (h : lineKey v x ≠ k) :
    specGroup v (xs ++ [x]) k = specGroup v xs k := by
  simp [specGroup, linesForKey_append, h]

theorem specGroup_append_eq (v : Bool) (xs : List InvoiceLine) (x : InvoiceLine) :
    specGroup v (xs ++ [x]) (lineKey v x) =
      updateGroup (specGroup v xs (lineKey v x)) (calculateLineExtension x)
        (lineTaxAmount x) := by
  simp [specGroup, updateGroup, linesForKey_append, accumRound_append]

theorem upsert_of_not_mem (c : String) (p e t : ℚ) (ex : Option String) :
    ∀ gs : List TaxGroup, (∀ g ∈ gs, ¬(g.categoryId = c ∧ g.percent = p)) →
    upsertGroup gs c p e t ex = gs ++ [⟨c, p, e, t, ex⟩] := by
  intro gs
  induction gs with
  | nil => intro _; rfl
  | cons g rest ih =>
    intro h
    rw [upsertGroup, if_neg (h g (List.mem_cons_self g rest))]
    rw [ih (fun g' hg' => h g' (List.mem_cons_of_mem g hg'))]
    simp

theorem upsert_map_of_mem (f : String × ℚ → TaxGroup)
    (hf : ∀ k, (f k).categoryId = k.1 ∧ (f k).percent = k.2) (e t : ℚ)
    (ex : Option String) :
    ∀ ks : List (String × ℚ), ks.Nodup → ∀ kx ∈ ks,
    upsertGroup (ks.map f) kx.1 kx.2 e t ex =
      ks.map (fun k => if k = kx then updateGroup (f k) e t else f k) := by
  intro ks
  induction ks with
  | nil => intro _ kx hkx; exact absurd hkx (List.not_mem_nil kx)
  | cons k0 rest ih =>
    intro hnd kx hkx
    have hcond : ((f k0).categoryId = kx.1 ∧ (f k0).percent = kx.2) ↔ k0 = kx := by
      rw [(hf k0).1, (hf k0).2, Prod.ext_iff]
    by_cases hk : k0 = kx
    · rw [List.map_cons, upsertGroup, if_pos (hcond.mpr hk)]
      rw [List.map_cons, if_pos hk]
      have hrest : rest.map (fun k => if k = kx then updateGroup (f k) e t else f k) =
          rest.map f := by
        apply List.map_congr_left
        intro a ha
        have : a ≠ kx := by
          intro he
          exact (List.nodup_cons.mp hnd).1 (hk ▸ he ▸ ha)
        rw [if_neg this]
      rw [hrest, updateGroup]
    · rw [List.map_cons, upsertGroup, if_neg (fun hc => hk (hcond.mp hc))]
      rw [List.map_cons, if_neg hk]
      have hkx' : kx ∈ rest := by
        rcases List.mem_cons.mp hkx with h | h
        · exact absurd h.symm hk
        · exact h
      rw [ih (List.nodup_cons.mp hnd).2 kx hkx']

theorem specGroup_categoryId (v : Bool) (ls : List InvoiceLine) (k : String × ℚ) :
    (specGroup v ls k).categoryId = k.1 := rfl

theorem specGroup_percent (v : Bool) (ls : List InvoiceLine) (k : String × ℚ) :
    (specGroup v ls k).percent = k.2 := rfl

theorem groupLineCategory_exemption (v : Bool) (p : ℚ) :
    (groupLineCategory v p).2 =
      (if (groupLineCategory v p).1 = "O" then some "VATEX-EU-O" else none) := by
  cases v with
  | false => rfl
  | true =>
    by_cases hp : p > 0 <;>
      simp only [groupLineCategory, Bool.not_true, Bool.false_eq_true, if_false,
        if_pos, if_neg, hp, ite_true, ite_false] <;> decide

theorem groupLinesByTax_eq_spec (v : Bool) (ls : List InvoiceLine) :
    groupLinesByTax ls v = groupLinesByTaxSpec ls v := by
  induction ls using List.reverseRecOn with
  | nil => rfl
  | append_singleton xs x ih =>
    rw [groupLinesByTax_append, ih]
    simp only [groupLinesByTaxSpec]
    rw [firstSeenKeys_append]
    by_cases hmem : lineKey v x ∈ firstSeenKeys v xs
    · rw [insertKey, if_pos hmem]
      have hmap : (firstSeenKeys v xs).map (specGroup v (xs ++ [x])) =
          (firstSeenKeys v xs).map
            (fun k => if k = lineKey v x then
              updateGroup (specGroup v xs k) (calculateLineExtension x) (lineTaxAmount x)
            else specGroup v xs k) := by
        apply List.map_congr_left
        intro k _
        by_cases hkx : k = lineKey v x
        · rw [if_pos hkx, hkx, specGroup_append_eq]
        · rw [if_neg hkx, specGroup_append_ne]
          exact fun he => hkx he.symm
      rw [hmap, groupStep]
      exact upsert_map_of_mem (specGroup v xs) (fun k => ⟨rfl, rfl⟩)
        (calculateLineExtension x) (lineTaxAmount x)
        (groupLineCategory v (effTaxPercent x)).2
        (firstSeenKeys v xs) (firstSeenKeys_nodup v xs) (lineKey v x) hmem
    · rw [insertKey, if_neg hmem, List.map_append]
      have hmap2 : (firstSeenKeys v xs).map (specGroup v (xs ++ [x])) =
          (firstSeenKeys v xs).map (specGroup v xs) := by
        apply List.map_congr_left
        intro k hk
        apply specGroup_append_ne
        intro he
        exact hmem (he ▸ hk)
      rw [hmap2, groupStep]
      have hno : ∀ g ∈ (firstSeenKeys v xs).map (specGroup v xs),
          ¬(g.categoryId = (groupLineCategory v (effTaxPercent x)).1 ∧
            g.percent = effTaxPercent x) := by
        intro g hg hcp
        obtain ⟨k, hk, rfl⟩ := List.mem_map.mp hg
        have hkk : k = lineKey v x := by
          rw [lineKey]
          exact Prod.ext_iff.mpr ⟨hcp.1, hcp.2⟩
        exact hmem (hkk ▸ hk)
      rw [upsert_of_not_mem _ _ _ _ _ _ hno]
      have hnil : linesForKey v xs (lineKey v x) = [] := by
        rw [linesForKey, List.filter_eq_nil_iff]
        intro a ha
        simp only [decide_eq_true_eq]
        intro he
        exact hmem ((firstSeenKeys_mem v xs _).mpr (List.mem_map.mpr ⟨a, ha, he⟩))
      have hsing : specGroup v (xs ++ [x]) (lineKey v x) =
          ⟨(groupLineCategory v (effTaxPercent x)).1, effTaxPercent x,
            calculateLineExtension x, lineTaxAmount x,
            (groupLineCategory v (effTaxPercent x)).2⟩ := by
        rw [specGroup, linesForKey_append, if_pos rfl, hnil]
        simp only [List.nil_append, List.map_cons, List.map_nil, TaxGroup.mk.injEq]
        refine ⟨rfl, rfl, ?_, ?_, ?_⟩
        · show round2 (0 + calculateLineExtension x) = calculateLineExtension x
          rw [zero_add, round2_calculateLineExtension]
        · show round2 (0 + lineTaxAmount x) = lineTaxAmount x
          rw [zero_add, round2_lineTaxAmount]
        · exact (groupLineCategory_exemption v (effTaxPercent x)).symm
      rw [List.map_singleton, hsing]

/-- C2: for every non-empty line sequence, `groupLinesByTax` returns exactly
one group per distinct (category, percent) key, in first-seen order of the
keys, each group's amounts accumulated over that key's lines' rounded
per-line amounts with re-rounding after each addition. -/
theorem claim2 (lines : List InvoiceLine) (v : Bool) (_hne : lines ≠ []) :
    groupLinesByTax lines v =
      (firstSeenKeys v lines).map (specGroup v lines) ∧
    (firstSeenKeys v lines).Nodup ∧
    (∀ k, k ∈ firstSeenKeys v lines ↔ k ∈ lines.map (lineKey v)) ∧
    (∀ g ∈ groupLinesByTax lines v,
      g.taxableAmount = accumRound
        ((linesForKey v lines (g.categoryId, g.percent)).map calculateLineExtension) ∧
      g.taxAmount = accumRound
        ((linesForKey v lines (g.categoryId, g.percent)).map lineTaxAmount)) := by
  refine ⟨groupLinesByTax_eq_spec v lines, firstSeenKeys_nodup v lines,
    fun k => firstSeenKeys_mem v lines k, ?_⟩
  intro g hg
  rw [groupLinesByTax_eq_spec] at hg
  obtain ⟨k, _, rfl⟩ := List.mem_map.mp hg
  exact ⟨rfl, rfl⟩

/-- Witness for C2 on a concrete two-line invoice with 19% and 9% lines. -/
theorem claim2_witness :
    groupLinesByTax
        [⟨none, "A", none, 1, none, 100, some 19⟩,
         ⟨none, "B", none, 1, none, 100, some 9⟩] true =
      (firstSeenKeys true
          [⟨none, "A", none, 1, none, 100, some 19⟩,
           ⟨none, "B", none, 1, none, 100, some 9⟩]).map
        (specGroup true
          [⟨none, "A", none, 1, none, 100, some 19⟩,
           ⟨none, "B", none, 1, none, 100, some 9⟩]) ∧
    (firstSeenKeys true
        [⟨none, "A", none, 1, none, 100, some 19⟩,
         ⟨none, "B", none, 1, none, 100, some 9⟩]).Nodup ∧
    (∀ k, k ∈ firstSeenKeys true
        [⟨none, "A", none, 1, none, 100, some 19⟩,
         ⟨none, "B", none, 1, none, 100, some 9⟩] ↔
      k ∈ [⟨none, "A", none, 1, none, 100, some 19⟩,
           (⟨none, "B", none, 1, none, 100, some 9⟩ : InvoiceLine)].map (lineKey true)) ∧
    (∀ g ∈ groupLinesByTax
        [⟨none, "A", none, 1, none, 100, some 19⟩,
         ⟨none, "B", none, 1, none, 100, some 9⟩] true,
      g.taxableAmount = accumRound
        ((linesForKey true
            [⟨none, "A", none, 1, none, 100, some 19⟩,
             ⟨none, "B", none, 1, none, 100, some 9⟩]
            (g.categoryId, g.percent)).map calculateLineExtension) ∧
      g.taxAmount = accumRound
        ((linesForKey true
            [⟨none, "A", none, 1, none, 100, some 19⟩,
             ⟨none, "B", none, 1, none, 100, some 9⟩]
            (g.categoryId, g.percent)).map lineTaxAmount)) :=
  claim2 _ true (List.cons_ne_nil _ _)

/-- C3: the per-line tax category is "O" (with exemption code "VATEX-EU-O")
whenever the supplier is not a VAT payer, regardless of the percent; else
"S" for positive percent and "Z" otherwise — and the same selection governs
the tax subtotal groups and each emitted line's ClassifiedTaxCategory. -/
theorem claim3 :
    (∀ (v : Bool) (p : ℚ),
      (groupLineCategory v p).1 = lineTaxCategory v p ∧
      (v = false → groupLineCategory v p = ("O", some "VATEX-EU-O")) ∧
      (v = true → 0 < p → groupLineCategory v p = ("S", none)) ∧
      (v = true → ¬0 < p → groupLineCategory v p = ("Z", none))) ∧
    (∀ (c : String) (v : Bool) (i : Nat) (l : InvoiceLine),
      ((buildLineXml c v i l).child 3).childrenOf.getLast? =
        some (.elem "cac:ClassifiedTaxCategory" []
          [.elem "cbc:ID" [] [.text (groupLineCategory v (effTaxPercent l)).1],
           .elem "cbc:Percent" [] [.text (toFixed2 (effTaxPercent l))],
           .elem "cac:TaxScheme" [] [.elem "cbc:ID" [] [.text "VAT"]]])) ∧
    (∀ (lines : List InvoiceLine) (v : Bool) (g : TaxGroup),
      g ∈ groupLinesByTax lines v →
      ∃ l ∈ lines, g.categoryId = (groupLineCategory v (effTaxPercent l)).1 ∧
        g.percent = effTaxPercent l ∧
        g.exemptionReasonCode = (groupLineCategory v (effTaxPercent l)).2) := by
  refine ⟨?_, ?_, ?_⟩
  · intro v p
    cases v with
    | false =>
      exact ⟨rfl, fun _ => rfl, fun h => absurd h (by decide),
        fun h => absurd h (by decide)⟩
    | true =>
      by_cases hp : p > 0
      · refine ⟨?_, fun h => absurd h (by decide), fun _ _ => ?_, fun _ hn => absurd hp hn⟩
        · simp [groupLineCategory, lineTaxCategory, hp]
        · simp [groupLineCategory, hp]
      · refine ⟨?_, fun h => absurd h (by decide), fun _ hp' => absurd hp' hp, fun _ _ => ?_⟩
        · simp [groupLineCategory, lineTaxCategory, hp]
        · simp [groupLineCategory, hp]
  · intro c v i l
    have hcat : lineTaxCategory v (effTaxPercent l) =
        (groupLineCategory v (effTaxPercent l)).1 := by
      cases v with
      | false => rfl
      | true =>
        by_cases hp : effTaxPercent l > 0 <;> simp [groupLineCategory, lineTaxCategory, hp]
    cases hd : l.description with
    | none => simp [buildLineXml, Xml.child, Xml.childrenOf, hd, hcat]
    | some d =>
      by_cases hd2 : d = "" <;> simp [buildLineXml, Xml.child, Xml.childrenOf, hd, hd2, hcat]
  · intro lines v g hg
    rw [groupLinesByTax_eq_spec] at hg
    obtain ⟨k, hk, rfl⟩ := List.mem_map.mp hg
    obtain ⟨l, hl, hkl⟩ := List.mem_map.mp ((firstSeenKeys_mem v lines k).mp hk)
    subst hkl
    exact ⟨l, hl, rfl, rfl, (groupLineCategory_exemption v (effTaxPercent l)).symm⟩

/-- Witness for C3 at the three category cases. -/
theorem claim3_witness :
    groupLineCategory false 19 = ("O", some "VATEX-EU-O") ∧
    groupLineCategory true 19 = ("S", none) ∧
    groupLineCategory true 0 = ("Z", none) :=
  ⟨(claim3.1 false 19).2.1 rfl, (claim3.1 true 19).2.2.1 rfl (by decide),
   (claim3.1 true 0).2.2.2 rfl (by decide)⟩

theorem foldl_add_map (f : TaxGroup → ℚ) (gs : List TaxGroup) :
    ∀ a : ℚ, gs.foldl (fun s g => s + f g) a = a + (gs.map f).sum := by
  induction gs with
  | nil => intro a; simp
  | cons g rest ih =>
    intro a
    rw [List.foldl_cons, ih, List.map_cons, List.sum_cons]
    ring

/-- C4: the aggregate totals are the plain (unrounded) sums of the group
amounts, the grand total is their sum rounded to two decimals, and the
emitted LegalMonetaryTotal carries the total taxable amount twice and the
grand total twice, each rendered with exactly two decimal places. -/
theorem claim4 (input : InvoiceInput) (doc : Xml)
    (h : buildInvoiceXml input = .ok doc) :
    totalTaxableAmount (taxGroupsOf input) =
      ((taxGroupsOf input).map TaxGroup.taxableAmount).sum ∧
    totalTaxAmountOf (taxGroupsOf input) =
      ((taxGroupsOf input).map TaxGroup.taxAmount).sum ∧
    grandTotalOf (taxGroupsOf input) =
      round2 (((taxGroupsOf input).map TaxGroup.taxableAmount).sum +
        ((taxGroupsOf input).map TaxGroup.taxAmount).sum) ∧
    legalMonetaryTotalXml (currencyOf input)
      (totalTaxableAmount (taxGroupsOf input))
      (grandTotalOf (taxGroupsOf input)) ∈ doc.childrenOf ∧
    (∀ q : ℚ, twoDecimalText (toFixed2 q)) := by
  have h1 : totalTaxableAmount (taxGroupsOf input) =
      ((taxGroupsOf input).map TaxGroup.taxableAmount).sum := by
    rw [totalTaxableAmount, foldl_add_map, zero_add]
  have h2 : totalTaxAmountOf (taxGroupsOf input) =
      ((taxGroupsOf input).map TaxGroup.taxAmount).sum := by
    rw [totalTaxAmountOf, foldl_add_map, zero_add]
  have hdoc : doc = buildInvoiceDoc input := by
    rw [buildInvoiceXml] at h
    split at h
    · exact absurd h (by simp)
    · exact (Except.ok.inj h).symm
  refine ⟨h1, h2, by rw [grandTotalOf, h1, h2], ?_, toFixed2_twoDecimal⟩
  subst hdoc
  simp [buildInvoiceDoc, Xml.childrenOf, invoiceChildren]

/-- Witness for C4 at the concrete demo invoice. -/
theorem claim4_witness :
    totalTaxableAmount (taxGroupsOf demoInput) =
      ((taxGroupsOf demoInput).map TaxGroup.taxableAmount).sum ∧
    totalTaxAmountOf (taxGroupsOf demoInput) =
      ((taxGroupsOf demoInput).map TaxGroup.taxAmount).sum ∧
    grandTotalOf (taxGroupsOf demoInput) =
      round2 (((taxGroupsOf demoInput).map TaxGroup.taxableAmount).sum +
        ((taxGroupsOf demoInput).map TaxGroup.taxAmount).sum) ∧
    legalMonetaryTotalXml (currencyOf demoInput)
      (totalTaxableAmount (taxGroupsOf demoInput))
      (grandTotalOf (taxGroupsOf demoInput)) ∈ (buildInvoiceDoc demoInput).childrenOf ∧
    (∀ q : ℚ, twoDecimalText (toFixed2 q)) :=
  claim4 demoInput (buildInvoiceDoc demoInput) rfl

theorem firstFailing_append (xs ys : List (Bool × String)) :
    firstFailing (xs ++ ys) =
      (match firstFailing xs with
       | .ok () => firstFailing ys
       | .error e => .error e) := by
  induction xs with
  | nil => rfl
  | cons p rest ih =>
    obtain ⟨b, msg⟩ := p
    cases b
    · simpa [firstFailing] using ih
    · simp [firstFailing]

theorem validateAddress_eq (a : Address) (role : String) :
    validateAddress a role = firstFailing (addressChecks role a) := by
  rw [validateAddress, addressChecks]
  by_cases h1 : jsTrim a.street = "" <;>
    by_cases h2 : jsTrim a.city = "" <;>
      by_cases h3 : jsTrim a.postalZone = "" <;>
        simp [firstFailing, h1, h2, h3]

theorem validateParty_eq (p : Party) (role : String) :
    validateParty p role = firstFailing (partyChecks role p) := by
  rw [validateParty, partyChecks]
  by_cases h1 : jsTrim p.registrationName = "" <;>
    by_cases h2 : jsTrim p.companyId = "" <;>
      cases hp : p.address <;>
        simp [firstFailing, h1, h2, hp, validateAddress_eq, firstFailing_append]

theorem validateLine_eq (l : InvoiceLine) (i : Nat) :
    validateLine l i = firstFailing (lineChecks i l) := by
  rw [validateLine, lineChecks]
  by_cases h1 : jsTrim l.name = "" <;>
    by_cases h2 : l.quantity ≤ 0 <;>
      by_cases h3 : l.unitPrice < 0 <;>
        cases ht : l.taxPercent with
        | none => simp [firstFailing, h1, h2, h3, ht]
        | some p =>
          by_cases h4 : p < 0 ∨ 100 < p <;> simp [firstFailing, h1, h2, h3, ht, h4]

theorem validateLines_eq (ls : List InvoiceLine) :
    ∀ i : Nat, validateLines ls i =
      firstFailing (((ls.enumFrom i).map (fun p => lineChecks p.1 p.2)).flatten) := by
  induction ls with
  | nil => intro i; rfl
  | cons l rest ih =>
    intro i
    rw [validateLines, List.enumFrom_cons, List.map_cons, List.flatten_cons,
      firstFailing_append, ← validateLine_eq]
    cases hv : validateLine l i with
    | error e => rfl
    | ok u => cases u; exact ih (i + 1)

theorem validateInvoiceInput_eq (input : InvoiceInput) :
    validateInvoiceInput input = firstFailing (checkList input) := by
  obtain ⟨tc, num, isd, dd, cur, sup, cust, lns, iban⟩ := input
  rw [validateInvoiceInput, checkList]
  simp only [List.cons_append, List.append_assoc, List.nil_append,
    List.singleton_append]
  by_cases h1 : jsTrim num = ""
  · simp [firstFailing, h1]
  · rw [if_neg h1]
    have hstep : ∀ rest : List (Bool × String),
        firstFailing ((decide (jsTrim num = ""),
          "Invoice number is required") :: rest) = firstFailing rest := by
      intro rest
      simp [firstFailing, h1]
    rw [hstep]
    cases isd with
    | none => simp [firstFailing]
    | some d =>
      simp only [Option.isNone_some, firstFailing, Bool.false_eq_true, if_false]
      cases sup with
      | none => simp [firstFailing]
      | some sp =>
        simp only []
        rw [firstFailing_append, ← validateParty_eq]
        cases hv : validateParty sp "Supplier" with
        | error e => simp [hv]
        | ok u =>
          cases u
          simp only [hv]
          cases cust with
          | none => simp [firstFailing]
          | some cu =>
            simp only []
            rw [firstFailing_append, ← validateParty_eq]
            cases hv2 : validateParty cu "Customer" with
            | error e => simp [hv2]
            | ok u2 =>
              cases u2
              simp only [hv2]
              cases lns with
              | none => simp [firstFailing]
              | some ls => exact validateLines_eq ls 0

/-- C5: `buildInvoiceXml` raises exactly the validation error kind, on the
first violation found, checking fields in the spec's order (invoice number,
issue date, supplier, customer, lines presence, per-line checks in sequence
order with 1-based indices in the messages); on failure no document is
produced, on success the document is produced and validation passed. -/
theorem claim5 (input : InvoiceInput) :
    validateInvoiceInput input = firstFailing (checkList input) ∧
    (∀ e, buildInvoiceXml input = .error e ↔ validateInvoiceInput input = .error e) ∧
    (∀ doc, buildInvoiceXml input = .ok doc →
      validateInvoiceInput input = .ok () ∧ doc = buildInvoiceDoc input) := by
  refine ⟨validateInvoiceInput_eq input, ?_, ?_⟩
  · intro e
    rw [buildInvoiceXml]
    cases hv : validateInvoiceInput input with
    | error e' => simp
    | ok u => cases u; simp
  · intro doc h
    rw [buildInvoiceXml] at h
    split at h
    · exact absurd h (by simp)
    · rename_i heq
      exact ⟨heq, (Except.ok.inj h).symm⟩

/-- Witness for C5 at the concrete demo invoice. -/
theorem claim5_witness :
    validateInvoiceInput demoInput = firstFailing (checkList demoInput) ∧
    (∀ e, buildInvoiceXml demoInput = .error e ↔
      validateInvoiceInput demoInput = .error e) ∧
    (∀ doc, buildInvoiceXml demoInput = .ok doc →
      validateInvoiceInput demoInput = .ok () ∧ doc = buildInvoiceDoc demoInput) :=
  claim5 demoInput

theorem round2_zero : round2 0 = 0 := by
  rw [round2_eq_of 0 0 (by norm_num) (by norm_num)]
  norm_num

theorem toFixed2_zero : toFixed2 0 = "0.00" := by
  rw [toFixed2_eq_of 0 0 (by norm_num) (by norm_num)]
  rfl

/-- C6: a present-but-empty lines array is not a validation error: the
builder succeeds, the tax group sequence is empty, the tax total renders
"0.00" with exactly one default "S"/0.00 subtotal, and the monetary total
renders "0.00" for every amount. -/
theorem claim6 (input : InvoiceInput) (h0 : input.lines = some [])
    (hv : validateInvoiceInput input = .ok ()) :
    buildInvoiceXml input = .ok (buildInvoiceDoc input) ∧
    taxGroupsOf input = [] ∧
    taxTotalXml (currencyOf input) (taxGroupsOf input)
        (totalTaxAmountOf (taxGroupsOf input)) =
      .elem "cac:TaxTotal" []
        [.elem "cbc:TaxAmount" [("currencyID", currencyOf input)] [.text "0.00"],
         defaultTaxSubtotalXml (currencyOf input)] ∧
    defaultTaxSubtotalXml (currencyOf input) =
      .elem "cac:TaxSubtotal" []
        [.elem "cbc:TaxableAmount" [("currencyID", currencyOf input)] [.text "0.00"],
         .elem "cbc:TaxAmount" [("currencyID", currencyOf input)] [.text "0.00"],
         .elem "cac:TaxCategory" []
           [.elem "cbc:ID" [] [.text "S"],
            .elem "cbc:Percent" [] [.text "0.00"],
            .elem "cac:TaxScheme" [] [.elem "cbc:ID" [] [.text "VAT"]]]] ∧
    taxTotalXml (currencyOf input) (taxGroupsOf input)
        (totalTaxAmountOf (taxGroupsOf input)) ∈
      (buildInvoiceDoc input).childrenOf ∧
    legalMonetaryTotalXml (currencyOf input)
        (totalTaxableAmount (taxGroupsOf input))
        (grandTotalOf (taxGroupsOf input)) =
      .elem "cac:LegalMonetaryTotal" []
        [.elem "cbc:LineExtensionAmount" [("currencyID", currencyOf input)] [.text "0.00"],
         .elem "cbc:TaxExclusiveAmount" [("currencyID", currencyOf input)] [.text "0.00"],
         .elem "cbc:TaxInclusiveAmount" [("currencyID", currencyOf input)] [.text "0.00"],
         .elem "cbc:PayableAmount" [("currencyID", currencyOf input)] [.text "0.00"]] ∧
    legalMonetaryTotalXml (currencyOf input)
        (totalTaxableAmount (taxGroupsOf input))
        (grandTotalOf (taxGroupsOf input)) ∈
      (buildInvoiceDoc input).childrenOf := by
  have htg : taxGroupsOf input = [] := by
    rw [taxGroupsOf, h0]
    simp
  have hgrand : grandTotalOf ([] : List TaxGroup) = 0 := by
    rw [grandTotalOf,
      show totalTaxableAmount ([] : List TaxGroup) = 0 from rfl,
      show totalTaxAmountOf ([] : List TaxGroup) = 0 from rfl, add_zero,
      round2_zero]
  refine ⟨?_, htg, ?_, rfl, ?_, ?_, ?_⟩
  · rw [buildInvoiceXml, hv]
  · rw [htg, show totalTaxAmountOf ([] : List TaxGroup) = 0 from rfl,
      taxTotalXml, toFixed2_zero]
    simp
  · simp [buildInvoiceDoc, Xml.childrenOf, invoiceChildren]
  · rw [htg, show totalTaxableAmount ([] : List TaxGroup) = 0 from rfl, hgrand,
      legalMonetaryTotalXml, toFixed2_zero]
  · simp [buildInvoiceDoc, Xml.childrenOf, invoiceChildren]

/-- Witness for C6 at the concrete demo invoice with an empty line list. -/
theorem claim6_witness :
    buildInvoiceXml demoInputEmpty = .ok (buildInvoiceDoc demoInputEmpty) ∧
    taxGroupsOf demoInputEmpty = [] ∧
    taxTotalXml (currencyOf demoInputEmpty) (taxGroupsOf demoInputEmpty)
        (totalTaxAmountOf (taxGroupsOf demoInputEmpty)) =
      .elem "cac:TaxTotal" []
        [.elem "cbc:TaxAmount" [("currencyID", currencyOf demoInputEmpty)] [.text "0.00"],
         defaultTaxSubtotalXml (currencyOf demoInputEmpty)] ∧
    defaultTaxSubtotalXml (currencyOf demoInputEmpty) =
      .elem "cac:TaxSubtotal" []
        [.elem "cbc:TaxableAmount" [("currencyID", currencyOf demoInputEmpty)] [.text "0.00"],
         .elem "cbc:TaxAmount" [("currencyID", currencyOf demoInputEmpty)] [.text "0.00"],
         .elem "cac:TaxCategory" []
           [.elem "cbc:ID" [] [.text "S"],
            .elem "cbc:Percent" [] [.text "0.00"],
            .elem "cac:TaxScheme" [] [.elem "cbc:ID" [] [.text "VAT"]]]] ∧
    taxTotalXml (currencyOf demoInputEmpty) (taxGroupsOf demoInputEmpty)
        (totalTaxAmountOf (taxGroupsOf demoInputEmpty)) ∈
      (buildInvoiceDoc demoInputEmpty).childrenOf ∧
    legalMonetaryTotalXml (currencyOf demoInputEmpty)
        (totalTaxableAmount (taxGroupsOf demoInputEmpty))
        (grandTotalOf (taxGroupsOf demoInputEmpty)) =
      .elem "cac:LegalMonetaryTotal" []
        [.elem "cbc:LineExtensionAmount" [("currencyID", currencyOf demoInputEmpty)] [.text "0.00"],
         .elem "cbc:TaxExclusiveAmount" [("currencyID", currencyOf demoInputEmpty)] [.text "0.00"],
         .elem "cbc:TaxInclusiveAmount" [("currencyID", currencyOf demoInputEmpty)] [.text "0.00"],
         .elem "cbc:PayableAmount" [("currencyID", currencyOf demoInputEmpty)] [.text "0.00"]] ∧
    legalMonetaryTotalXml (currencyOf demoInputEmpty)
        (totalTaxableAmount (taxGroupsOf demoInputEmpty))
        (grandTotalOf (taxGroupsOf demoInputEmpty)) ∈
      (buildInvoiceDoc demoInputEmpty).childrenOf :=
  claim6 demoInputEmpty rfl rfl

/-- C7: `sanitizeCounty` maps null/empty/whitespace to null; otherwise it
normalizes, tries a direct table lookup, and on failure strips the
administrative qualifier words and retries exactly once, returning null
when neither attempt matches (it is a total function, so it never throws);
with the six concrete examples of the spec. -/
theorem claim7 :
    sanitizeCounty none = none ∧
    (∀ s, jsTrim s = "" → sanitizeCounty (some s) = none) ∧
    (∀ s c, jsTrim s ≠ "" → lookupCounty (normalizeInput s) = some c →
      sanitizeCounty (some s) = some c) ∧
    (∀ s, jsTrim s ≠ "" → lookupCounty (normalizeInput s) = none →
      sanitizeCounty (some s) = lookupCounty (stripAdminWords (normalizeInput s))) ∧
    (sanitizeCounty (some "cluj") = some "RO-CJ" ∧
     sanitizeCounty (some "Iași") = some "RO-IS" ∧
     sanitizeCounty (some "bistrita-nasaud") = some "RO-BN" ∧
     sanitizeCounty (some "Mun. Iasi") = some "RO-IS" ∧
     sanitizeCounty (some "bucuresti") = some "RO-B" ∧
     sanitizeCounty (some "transilvania") = none) := by
  refine ⟨rfl, ?_, ?_, ?_,
    by decide, by decide, by decide, by decide, by decide, by decide⟩
  · intro s h
    simp [sanitizeCounty, h]
  · intro s c h1 h2
    simp [sanitizeCounty, h1, h2]
  · intro s h1 h2
    simp [sanitizeCounty, h1, h2]

/-- Witness for C7 at concrete inputs for each behaviour. -/
theorem claim7_witness :
    sanitizeCounty (some "   ") = none ∧
    sanitizeCounty (some "cluj") = some "RO-CJ" ∧
    sanitizeCounty (some "transilvania") =
      lookupCounty (stripAdminWords (normalizeInput "transilvania")) :=
  ⟨claim7.2.1 "   " (by decide),
   claim7.2.2.1 "cluj" "RO-CJ" (by decide) (by decide),
   claim7.2.2.2.1 "transilvania" (by decide) (by decide)⟩

/-- C8: `sanitizeBucharestSector` maps null/empty/whitespace to null,
extracts the first sector-number token of the normalized string, accepts
numbers 1–6 (zero-padded forms included) always formatting `SECTOR<N>`
without padding, and yields null for out-of-range digits or when no token
is recognizable; with the four concrete examples of the spec. -/
theorem claim8 :
    sanitizeBucharestSector none = none ∧
    (∀ s, jsTrim s = "" → sanitizeBucharestSector (some s) = none) ∧
    (∀ s r, sanitizeBucharestSector (some s) = some r →
      ∃ n : Nat, 1 ≤ n ∧ n ≤ 6 ∧ r = "SECTOR" ++ toString n) ∧
    (∀ s, jsTrim s ≠ "" → findSectorToken (wordsOf (normalizeInput s)) = none →
      sanitizeBucharestSector (some s) = none) ∧
    (∀ s ds, jsTrim s ≠ "" →
      findSectorToken (wordsOf (normalizeInput s)) = some ds →
      ¬(1 ≤ digitsToNat ds ∧ digitsToNat ds ≤ 6) →
      sanitizeBucharestSector (some s) = none) ∧
    (sanitizeBucharestSector (some "sector 1") = some "SECTOR1" ∧
     sanitizeBucharestSector (some "s06") = some "SECTOR6" ∧
     sanitizeBucharestSector (some "sector 0") = none ∧
     sanitizeBucharestSector (some "sector 7") = none) := by
  refine ⟨rfl, ?_, ?_, ?_, ?_, by decide, by decide, by decide, by decide⟩
  · intro s h
    simp [sanitizeBucharestSector, h]
  · intro s r h
    rw [sanitizeBucharestSector] at h
    by_cases h1 : jsTrim s = ""
    · simp [h1] at h
    · rw [if_neg h1] at h
      cases hf : findSectorToken (wordsOf (normalizeInput s)) with
      | none => rw [hf] at h; exact absurd h (by simp)
      | some ds =>
        rw [hf] at h
        simp only [] at h
        by_cases h2 : 1 ≤ digitsToNat ds ∧ digitsToNat ds ≤ 6
        · rw [if_pos h2] at h
          exact ⟨digitsToNat ds, h2.1, h2.2, (Option.some.inj h).symm⟩
        · rw [if_neg h2] at h
          exact absurd h (by simp)
  · intro s h1 h2
    simp [sanitizeBucharestSector, h1, h2]
  · intro s ds h1 h2 h3
    simp [sanitizeBucharestSector, h1, h2, h3]

/-- Witness for C8 at concrete inputs for each behaviour. -/
theorem claim8_witness :
    sanitizeBucharestSector (some " ") = none ∧
    (∃ n : Nat, 1 ≤ n ∧ n ≤ 6 ∧ "SECTOR1" = "SECTOR" ++ toString n) ∧
    sanitizeBucharestSector (some "sector 7") = none :=
  ⟨claim8.2.1 " " (by decide),
   claim8.2.2.1 "sector 1" "SECTOR1" (by decide),
   claim8.2.2.2.2.1 "sector 7" "7" (by decide) (by decide) (by decide)⟩

/-- C9: the emitted postal address renders the county as the
`sanitizeCounty` result of the free-text county, a failed normalization
degrading to empty text (never an exception, the functions being total);
and the CityName carries the sanitized Bucharest sector instead of the raw
city exactly when the resolved county is `RO-B` per `isBucharest`. -/
theorem claim9 (address : Address) :
    (buildPostalAddressXml address).child 3 =
      .elem "cbc:CountrySubentity" [] [.text ((sanitizeCounty address.county).getD "")] ∧
    (sanitizeCounty address.county = none →
      (buildPostalAddressXml address).child 3 =
        .elem "cbc:CountrySubentity" [] [.text ""]) ∧
    (isBucharest (sanitizeCounty address.county) = true →
      (buildPostalAddressXml address).child 1 =
        .elem "cbc:CityName" []
          [.text ((sanitizeBucharestSector (some address.city)).getD "")]) ∧
    (isBucharest (sanitizeCounty address.county) = false →
      (buildPostalAddressXml address).child 1 =
        .elem "cbc:CityName" [] [.text address.city]) ∧
    (∀ (party : Party) (tagName : String), party.address = some address →
      ((buildPartyXml tagName party).child 0).child 0 =
        buildPostalAddressXml address) := by
  refine ⟨?_, ?_, ?_, ?_, ?_⟩
  · simp [buildPostalAddressXml, Xml.child, Xml.childrenOf]
  · intro h
    simp [buildPostalAddressXml, Xml.child, Xml.childrenOf, h]
  · intro h
    simp [buildPostalAddressXml, Xml.child, Xml.childrenOf, h]
  · intro h
    simp [buildPostalAddressXml, Xml.child, Xml.childrenOf, h]
  · intro party tagName hp
    simp [buildPartyXml, Xml.child, Xml.childrenOf, hp]

/-- Witness for C9 at the demo supplier's Bucharest address. -/
theorem claim9_witness :
    (buildPostalAddressXml ⟨"Str. Exemplu 1", "Sector 3", "010101", some "Bucuresti", none⟩).child 3 =
      .elem "cbc:CountrySubentity" []
        [.text ((sanitizeCounty (Address.county
          ⟨"Str. Exemplu 1", "Sector 3", "010101", some "Bucuresti", none⟩)).getD "")] ∧
    (buildPostalAddressXml ⟨"Str. Exemplu 1", "Sector 3", "010101", some "Bucuresti", none⟩).child 1 =
      .elem "cbc:CityName" []
        [.text ((sanitizeBucharestSector (some (Address.city
          ⟨"Str. Exemplu 1", "Sector 3", "010101", some "Bucuresti", none⟩))).getD "")] ∧
    ((buildPartyXml "cac:AccountingSupplierParty" demoSupplier).child 0).child 0 =
      buildPostalAddressXml ⟨"Str. Exemplu 1", "Sector 3", "010101", some "Bucuresti", none⟩ :=
  ⟨(claim9 ⟨"Str. Exemplu 1", "Sector 3", "010101", some "Bucuresti", none⟩).1,
   (claim9 ⟨"Str. Exemplu 1", "Sector 3", "010101", some "Bucuresti", none⟩).2.2.1 (by decide),
   (claim9 ⟨"Str. Exemplu 1", "Sector 3", "010101", some "Bucuresti", none⟩).2.2.2.2
     demoSupplier "cac:AccountingSupplierParty" rfl⟩

/-- C10: the emitted party block contains a `cac:PartyTaxScheme` element if
and only if the party's VAT-payer flag is true; when present, its CompanyID
holds the VAT-normalized company identifier with tax scheme "VAT"; when the
flag is false or absent, no such element appears and the company identifier
appears only unnormalized inside `cac:PartyLegalEntity`. -/
theorem claim10 (tagName : String) (party : Party) :
    (party.isVatPayer.getD false = true →
      (buildPartyXml tagName party).child 0 =
        .elem "cac:Party" []
          [buildPostalAddressXml (party.address.getD emptyAddress),
           .elem "cac:PartyTaxScheme" []
             [.elem "cbc:CompanyID" [] [.text (normalizeVatNumber party.companyId)],
              .elem "cac:TaxScheme" [] [.elem "cbc:ID" [] [.text "VAT"]]],
           partyLegalEntityXml party]) ∧
    (party.isVatPayer.getD false = false →
      (buildPartyXml tagName party).child 0 =
        .elem "cac:Party" []
          [buildPostalAddressXml (party.address.getD emptyAddress),
           partyLegalEntityXml party]) ∧
    ((∃ x ∈ ((buildPartyXml tagName party).child 0).childrenOf,
        x.nameOf = "cac:PartyTaxScheme") ↔ party.isVatPayer.getD false = true) ∧
    partyLegalEntityXml party =
      .elem "cac:PartyLegalEntity" []
        [.elem "cbc:RegistrationName" [] [.text party.registrationName],
         .elem "cbc:CompanyID" [] [.text party.companyId]] := by
  refine ⟨?_, ?_, ?_, rfl⟩
  · intro h
    simp [buildPartyXml, Xml.child, Xml.childrenOf, h]
  · intro h
    simp [buildPartyXml, Xml.child, Xml.childrenOf, h]
  · cases hb : party.isVatPayer.getD false <;>
      simp [buildPartyXml, buildPostalAddressXml, partyLegalEntityXml,
        Xml.child, Xml.childrenOf, Xml.nameOf, hb]

/-- Witness for C10 at a VAT-paying and a non-VAT party. -/
theorem claim10_witness :
    (buildPartyXml "cac:AccountingSupplierParty" demoSupplier).child 0 =
      .elem "cac:Party" []
        [buildPostalAddressXml (demoSupplier.address.getD emptyAddress),
         .elem "cac:PartyTaxScheme" []
           [.elem "cbc:CompanyID" [] [.text (normalizeVatNumber demoSupplier.companyId)],
            .elem "cac:TaxScheme" [] [.elem "cbc:ID" [] [.text "VAT"]]],
         partyLegalEntityXml demoSupplier] ∧
    (buildPartyXml "cac:AccountingCustomerParty"
        (⟨"Client PF", "1234567890123", none, none⟩ : Party)).child 0 =
      .elem "cac:Party" []
        [buildPostalAddressXml
           ((⟨"Client PF", "1234567890123", none, none⟩ : Party).address.getD emptyAddress),
         partyLegalEntityXml ⟨"Client PF", "1234567890123", none, none⟩] :=
  ⟨(claim10 "cac:AccountingSupplierParty" demoSupplier).1 rfl,
   (claim10 "cac:AccountingCustomerParty" ⟨"Client PF", "1234567890123", none, none⟩).2.1 rfl⟩
